import Mathlib

/-!
Verification of the SPC suggestion backend (`src/app/`): a shallow embedding
of the response extractor (`GeminiService._extract_json`), the result
projector (`GeminiService._process_gemini_response`), the prompt summary
builder (`build_summary_prompt`) and the request handler
(`generate_suggestions` in `main.py`), together with theorems settling the
spec claims about them.

Modelling conventions:
* Python floats are idealized as exact rationals (`ℚ`); Python's `round`
  (round half to even) becomes `pyRound`, and `f".2f"` formatting becomes
  `formatMoney2`.
* JSON values are the inductive `Json`; `json.loads` is `json_loads_chars`,
  a small JSON parser faithful to the `json` module's grammar (objects,
  arrays, strings with escapes, numbers, `true`/`false`/`null`; the
  non-standard `NaN`/`Infinity` literals Python additionally accepts are
  unrepresentable in `ℚ` and omitted).
* Python exceptions are the inductive `PyErr`; fallible code returns
  `Except PyErr _`.  `KeyError` and `TypeError` are distinguished from
  `ValueError` because `main.py` maps only `ValueError` to HTTP 422.
-/

namespace POC

/-- JSON values as produced by Python's `json.loads`: null, booleans,
numbers (idealized as exact rationals), strings, arrays, and objects
(insertion-ordered key/value lists; the parser keeps keys unique). -/
inductive Json where
  | null
  | bool (b : Bool)
  | num (q : ℚ)
  | str (s : String)
  | arr (elts : List Json)
  | obj (fields : List (String × Json))

/-- Key lookup in an object's field list (Python `dict` subscript / `get`);
first binding wins, which agrees with `dict` since the parser keeps keys
unique. -/
def lookupKey (fields : List (String × Json)) (k : String) : Option Json :=
  (fields.find? (fun p => p.1 == k)).map (fun p => p.2)

/-- Python truthiness (`bool(v)`) of a JSON value. -/
def truthy : Json → Bool
  | .null => false
  | .bool b => b
  | .num q => !(q == 0)
  | .str s => !s.isEmpty
  | .arr l => !l.isEmpty
  | .obj l => !l.isEmpty

/-- Python `==` between a known string and an arbitrary JSON value: equal
only to the equal string (comparison with any non-string value is `False`).
Used for `i['itemId'] == item_result['itemId']` where the left side is a
request item's string identifier. -/
def pyEqStr (s : String) : Json → Bool
  | .str t => s == t
  | _ => false

/-- Python exceptions relevant to this code base.  `ValueError` is raised by
the extractor and the Gemini wrapper; `KeyError` by subscripting a `dict`
with a missing key; `TypeError` stands for the remaining type failures
(bad subscript, bad operand, missing attribute). -/
inductive PyErr where
  | valueError (msg : String)
  | keyError (key : String)
  | typeError (msg : String)
deriving DecidableEq, Repr

/-- Round half to even to an integer, Python's `round` on exact values. -/
def roundHalfEven (q : ℚ) : ℤ :=
  let f := ⌊q⌋
  let frac := q - (f : ℚ)
  if frac < 1/2 then f
  else if 1/2 < frac then f + 1
  else if f % 2 = 0 then f else f + 1

/-- Python `round(q, n)` idealized over exact rationals. -/
def pyRound (q : ℚ) (n : ℕ) : ℚ := (roundHalfEven (q * 10 ^ n) : ℚ) / 10 ^ n

/-! ### Characters and whitespace

Backtick and brace characters are written via `Char.ofNat` codes. -/

def backtickChar : Char := Char.ofNat 96

def lbraceChar : Char := Char.ofNat 123

def rbraceChar : Char := Char.ofNat 125

/-- JSON's whitespace characters (what `json.loads` skips between tokens). -/
def isJsonWs (c : Char) : Bool := c == ' ' || c == '\t' || c == '\n' || c == '\r'

/-- The whitespace class of Python's `str.strip` and of the regex `\s`,
restricted to ASCII (the inputs of interest contain no Unicode spaces). -/
def isPyWs (c : Char) : Bool := isJsonWs c || c == '\x0b' || c == '\x0c'

/-- Python `str.strip()`. -/
def pyStrip (s : List Char) : List Char :=
  ((s.dropWhile isPyWs).reverse.dropWhile isPyWs).reverse

/-! ### A JSON parser mirroring `json.loads` -/

/-- Hexadecimal digit value, for `\uXXXX` escapes. -/
def hexVal (c : Char) : Option ℕ :=
  if '0' ≤ c ∧ c ≤ '9' then some (c.toNat - '0'.toNat)
  else if 'a' ≤ c ∧ c ≤ 'f' then some (c.toNat - 'a'.toNat + 10)
  else if 'A' ≤ c ∧ c ≤ 'F' then some (c.toNat - 'A'.toNat + 10)
  else none

/-- Body of a JSON string literal, after the opening quote: processes the
standard escapes, rejects unescaped control characters (as Python's strict
parser does), and stops at the closing quote.  Lone-surrogate pairing of
consecutive `\u` escapes is not modelled. -/
def parseStringBody : List Char → List Char → Option (String × List Char)
  | _, [] => none
  | acc, c :: rest =>
    if c = '"' then some (String.mk acc.reverse, rest)
    else if c = '\\' then
      match rest with
      | [] => none
      | e :: rest2 =>
        if e = '"' then parseStringBody ('"' :: acc) rest2
        else if e = '\\' then parseStringBody ('\\' :: acc) rest2
        else if e = '/' then parseStringBody ('/' :: acc) rest2
        else if e = 'b' then parseStringBody ('\x08' :: acc) rest2
        else if e = 'f' then parseStringBody ('\x0c' :: acc) rest2
        else if e = 'n' then parseStringBody ('\n' :: acc) rest2
        else if e = 'r' then parseStringBody ('\r' :: acc) rest2
        else if e = 't' then parseStringBody ('\t' :: acc) rest2
        else if e = 'u' then
          match rest2 with
          | h1 :: h2 :: h3 :: h4 :: rest3 =>
            match hexVal h1, hexVal h2, hexVal h3, hexVal h4 with
            | some a, some b, some c2, some d =>
              parseStringBody (Char.ofNat (((a * 16 + b) * 16 + c2) * 16 + d) :: acc) rest3
            | _, _, _, _ => none
          | _ => none
        else none
    else if c.toNat < 32 then none
    else parseStringBody (c :: acc) rest

/-- Accumulate decimal digits into a natural number. -/
def digitsToNat : List Char → ℕ → ℕ
  | [], acc => acc
  | c :: rest, acc => digitsToNat rest (acc * 10 + (c.toNat - '0'.toNat))

/-- Assemble `sign·mantissa · 10^exp` with `fracLen` digits after the
decimal point, using `mkRat` only (so the result evaluates by `rfl`). -/
def applyExp (mant : ℤ) (fracLen : ℕ) (exp : ℤ) : ℚ :=
  if 0 ≤ exp then mkRat (mant * (10 : ℤ) ^ exp.toNat) ((10 : ℕ) ^ fracLen)
  else mkRat mant ((10 : ℕ) ^ fracLen * (10 : ℕ) ^ (-exp).toNat)

/-- Exponent part of a JSON number, after the `e`/`E`. -/
def parseNumberExp (sign : ℤ) (mant : ℕ) (fracLen : ℕ) (r : List Char) :
    Option (ℚ × List Char) :=
  let se : ℤ × List Char :=
    match r with
    | '+' :: rest => (1, rest)
    | '-' :: rest => (-1, rest)
    | _ => (1, r)
  let es := se.2.takeWhile Char.isDigit
  if es.isEmpty then none
  else some (applyExp (sign * (mant : ℤ)) fracLen (se.1 * (digitsToNat es 0 : ℤ)),
    se.2.dropWhile Char.isDigit)

/-- A JSON number: `-? int frac? exp?` with no leading zeros, as accepted
by `json.loads`. -/
def parseNumber (s0 : List Char) : Option (ℚ × List Char) :=
  let ss : ℤ × List Char :=
    match s0 with
    | '-' :: rest => (-1, rest)
    | _ => (1, s0)
  match ss.2 with
  | [] => none
  | c0 :: _ =>
    if c0.isDigit = false then none
    else
      let ds := ss.2.takeWhile Char.isDigit
      let r1 := ss.2.dropWhile Char.isDigit
      if 1 < ds.length ∧ ds.headD 'x' = '0' then none
      else
        let step2 : Option ((ℕ × ℕ) × List Char) :=
          match r1 with
          | '.' :: r2 =>
            let fs := r2.takeWhile Char.isDigit
            if fs.isEmpty then none
            else some ((digitsToNat (ds ++ fs) 0, fs.length), r2.dropWhile Char.isDigit)
          | _ => some ((digitsToNat ds 0, 0), r1)
        match step2 with
        | none => none
        | some ((mant, fracLen), r3) =>
          match r3 with
          | 'e' :: r4 => parseNumberExp ss.1 mant fracLen r4
          | 'E' :: r4 => parseNumberExp ss.1 mant fracLen r4
          | _ => some (applyExp (ss.1 * (mant : ℤ)) fracLen 0, r3)

/-- `dict` insertion used while parsing an object: a repeated key overwrites
the earlier value but keeps the original position, as in CPython. -/
def insertKey (fields : List (String × Json)) (k : String) (v : Json) :
    List (String × Json) :=
  if fields.any (fun p => p.1 == k) then
    fields.map (fun p => if p.1 == k then (k, v) else p)
  else fields ++ [(k, v)]

mutual

/-- One JSON value, first character significant (callers strip whitespace).
The fuel only bounds nesting; `json_loads_chars` supplies enough. -/
def parseValue : ℕ → List Char → Option (Json × List Char)
  | 0, _ => none
  | fuel + 1, s =>
    match s with
    | [] => none
    | c :: rest =>
      if c = lbraceChar then
        match rest.dropWhile isJsonWs with
        | r₀ :: r₁ => if r₀ = rbraceChar then some (.obj [], r₁)
            else parseMembers fuel (r₀ :: r₁) []
        | [] => none
      else if c = '[' then
        match rest.dropWhile isJsonWs with
        | ']' :: r₁ => some (.arr [], r₁)
        | r => parseElements fuel r []
      else if c = '"' then
        match parseStringBody [] rest with
        | some (t, r₁) => some (.str t, r₁)
        | none => none
      else if c = 't' then
        match s with
        | 't' :: 'r' :: 'u' :: 'e' :: r₁ => some (.bool true, r₁)
        | _ => none
      else if c = 'f' then
        match s with
        | 'f' :: 'a' :: 'l' :: 's' :: 'e' :: r₁ => some (.bool false, r₁)
        | _ => none
      else if c = 'n' then
        match s with
        | 'n' :: 'u' :: 'l' :: 'l' :: r₁ => some (.null, r₁)
        | _ => none
      else
        match parseNumber s with
        | some (q, r₁) => some (.num q, r₁)
        | none => none

/-- Members of a JSON object after the opening brace (nonempty case). -/
def parseMembers : ℕ → List Char → List (String × Json) → Option (Json × List Char)
  | 0, _, _ => none
  | fuel + 1, s, acc =>
    match s with
    | '"' :: rest =>
      match parseStringBody [] rest with
      | none => none
      | some (key, r₁) =>
        match r₁.dropWhile isJsonWs with
        | ':' :: r₂ =>
          match parseValue fuel (r₂.dropWhile isJsonWs) with
          | none => none
          | some (v, r₃) =>
            match r₃.dropWhile isJsonWs with
            | ',' :: r₄ => parseMembers fuel (r₄.dropWhile isJsonWs) (insertKey acc key v)
            | c :: r₄ => if c = rbraceChar then some (.obj (insertKey acc key v), r₄) else none
            | [] => none
        | _ => none
    | _ => none

/-- Elements of a JSON array after the opening bracket (nonempty case). -/
def parseElements : ℕ → List Char → List Json → Option (Json × List Char)
  | 0, _, _ => none
  | fuel + 1, s, acc =>
    match parseValue fuel s with
    | none => none
    | some (v, r₁) =>
      match r₁.dropWhile isJsonWs with
      | ',' :: r₂ => parseElements fuel (r₂.dropWhile isJsonWs) (acc ++ [v])
      | ']' :: r₂ => some (.arr (acc ++ [v]), r₂)
      | _ => none

end

/-- `json.loads`, over a character list: one JSON value surrounded by
optional whitespace, `none` on any `JSONDecodeError`. -/
def json_loads_chars (s : List Char) : Option Json :=
  match parseValue (2 * s.length + 2) (s.dropWhile isJsonWs) with
  | some (v, rest) => if (rest.dropWhile isJsonWs).isEmpty then some v else none
  | none => none

/-! ### The extractor `GeminiService._extract_json`

Strategy 2 of the extractor is the Python regex search
`re.search(r'<fence>(?:json)?\s*(\{[\s\S]*?\})\s*<fence>', text)` where
`<fence>` is three backticks: the leftmost position where the pattern
matches wins, the optional `json` tag is tried greedily, `\s*` is
whitespace, and the lazy `[\s\S]*?` makes the capture end at the first
closing brace that is followed by whitespace and a closing fence. -/

/-- Does the text begin with three backticks? -/
def startsWithFence : List Char → Bool
  | a :: b :: c :: _ => a == backtickChar && b == backtickChar && c == backtickChar
  | _ => false

/-- Does the text begin with `\s*` and then a closing fence? -/
def closesFence (s : List Char) : Bool := startsWithFence (s.dropWhile isPyWs)

/-- Lazy scan for the capture group `\{[\s\S]*?\}`: the opening brace has
been consumed; stop at the first closing brace whose remainder is
whitespace followed by a closing fence. -/
def scanInterior : List Char → List Char → Option (List Char)
  | _, [] => none
  | acc, c :: rest =>
    if c = rbraceChar ∧ closesFence rest then
      some (lbraceChar :: (acc.reverse ++ [rbraceChar]))
    else scanInterior (c :: acc) rest

/-- Attempt the fenced-block pattern anchored at the head of the text:
three backticks, optionally the tag `json` (tried first, with backtracking
as in the regex), whitespace, then the lazy brace capture. -/
def matchFenceAt (s : List Char) : Option (List Char) :=
  match s with
  | a :: b :: c :: rest =>
    if a == backtickChar && b == backtickChar && c == backtickChar then
      let afterTick := fun (r : List Char) =>
        match r.dropWhile isPyWs with
        | d :: r₂ => if d = lbraceChar then scanInterior [] r₂ else none
        | [] => none
      match rest with
      | 'j' :: 's' :: 'o' :: 'n' :: r₂ =>
        match afterTick r₂ with
        | some cap => some cap
        | none => afterTick rest
      | _ => afterTick rest
    else none
  | _ => none

/-- `re.search` of the fenced-block pattern: leftmost match wins. -/
def fenceSearch : List Char → Option (List Char)
  | [] => none
  | c :: rest =>
    match matchFenceAt (c :: rest) with
    | some cap => some cap
    | none => fenceSearch rest

/-- Python `str.find`: index of the first occurrence of a character. -/
def strFindIdx (s : List Char) (c : Char) : Option ℕ := s.findIdx? (fun x => x == c)

/-- Python `str.rfind`: index of the last occurrence of a character. -/
def strRFindIdx (s : List Char) (c : Char) : Option ℕ :=
  match s.reverse.findIdx? (fun x => x == c) with
  | some i => some (s.length - 1 - i)
  | none => none

/-- Strategy 3's candidate substring: from the first opening brace to the
last closing brace, inclusive, provided the latter comes strictly later
(the source's `first_brace != -1 and last_brace != -1 and
last_brace > first_brace`). -/
def braceSpan (t : List Char) : Option (List Char) :=
  match strFindIdx t lbraceChar, strRFindIdx t rbraceChar with
  | some f, some l => if f < l then some ((t.drop f).take (l - f + 1)) else none
  | _, _ => none

/-- The message of the `ValueError` raised when every strategy fails. -/
def malformedResponseMsg : String := "Could not extract valid JSON from Gemini response"

/-- `GeminiService._extract_json`: strip the text, then try (1) parsing it
directly, (2) parsing the fenced-block capture, (3) parsing the substring
from the first opening to the last closing brace; each parse failure is
swallowed and the next strategy tried; raise `ValueError` when all fail. -/
def extract_json (text : String) : Except PyErr Json :=
  let t := pyStrip text.data
  match json_loads_chars t with
  | some j => .ok j
  | none =>
    match (fenceSearch t).bind json_loads_chars with
    | some j => .ok j
    | none =>
      match (braceSpan t).bind json_loads_chars with
      | some j => .ok j
      | none => .error (.valueError malformedResponseMsg)

/-- Strategy 1 as the spec states it: parse the trimmed text directly. -/
def strategy1 (t : List Char) : Option Json := json_loads_chars t

/-- Strategy 2 as the spec states it: find a fenced code block (optionally
tagged `json`) and parse its brace-delimited interior. -/
def strategy2 (t : List Char) : Option Json := (fenceSearch t).bind json_loads_chars

/-- Strategy 3 as the spec states it: parse the substring from the first
opening brace to the last closing brace. -/
def strategy3 (t : List Char) : Option Json := (braceSpan t).bind json_loads_chars

/-! ### The projector `GeminiService._process_gemini_response`

The original request items are typed (they come from the pydantic
`ItemInput` model via `model_dump()`); the model's parsed output is
untrusted `Json`. -/

/-- A request item (`app.models.ItemInput`), already validated at the HTTP
boundary. -/
structure ItemInput where
  itemId : String
  name : String
  currentCost : ℚ
  lastUsed : Option String
  catalogNo : Option String := none
  category : Option String := none
  unitOfMeasure : Option String := none
deriving Repr

/-- One processed suggestion dict as built at lines 164-172 of
`gemini_service.py`.  `name`, `estimatedCost`, `confidence` and `rationale`
are passed through as the model sent them (hence `Json`);
`costSavings`/`savingsPercent` are computed locally. -/
structure ProcSugg where
  suggestedItemId : Option String
  name : Json
  estimatedCost : Json
  costSavings : ℚ
  savingsPercent : ℚ
  confidence : Json
  rationale : Json

/-- One processed item dict as built at lines 178-190 of
`gemini_service.py`.  `itemId` is stored as the matched original's
identifier string: the guard `i['itemId'] == item_result['itemId']` makes
it equal to the model's value.  The nested `removalSuggestion` dict is
flattened into the three `removal`-prefixed fields. -/
structure ProcItem where
  itemId : String
  name : Json
  currentCost : ℚ
  lastUsed : Option String
  neverUsedFlag : Json
  suggestions : List ProcSugg
  removal_recommended : Json
  removal_reason : Json
  actionableCheckboxId : Option String

/-- Numeric coercion performed by Python's `-` on the right operand of
`current_cost - sugg['estimatedCost']`: numbers are themselves, booleans
are the ints 0/1, everything else is a `TypeError`. -/
def Json.asNumber : Json → Option ℚ
  | .num q => some q
  | .bool b => some (if b then 1 else 0)
  | _ => none

/-- Python iteration over a JSON value (`for x in v`): lists yield their
elements, strings their characters (as 1-character strings), dicts their
keys; other values raise `TypeError`. -/
def pyIter : Json → Except PyErr (List Json)
  | .arr l => .ok l
  | .str s => .ok (s.data.map (fun c => Json.str (String.mk [c])))
  | .obj l => .ok (l.map (fun p => Json.str p.1))
  | _ => .error (.typeError "object is not iterable")

/-- Python slice `v[:3]`: lists and strings are sliced, every other value
raises `TypeError`. -/
def pySliceTake3 : Json → Except PyErr (List Json)
  | .arr l => .ok (l.take 3)
  | .str s => .ok ((s.data.take 3).map (fun c => Json.str (String.mk [c])))
  | _ => .error (.typeError "unhashable type: slice")

/-- Process a list left to right, stopping at the first raised exception —
the effect of a Python `for` loop whose body appends one result per
element. -/
def mapExcept {α β : Type} (f : α → Except PyErr β) : List α → Except PyErr (List β)
  | [] => .ok []
  | x :: xs =>
    match f x with
    | .error e => .error e
    | .ok y =>
      match mapExcept f xs with
      | .error e => .error e
      | .ok ys => .ok (y :: ys)

/-- Lines 159-172: process one entry of the model's `suggestions` array.
Evaluation order follows the source: `sugg['estimatedCost']` and the
subtraction first (line 161), then the result dict literal, whose
`name` and `rationale` subscripts can raise `KeyError`.  The pure local
assignments `cost_savings` and `savings_percent` are inlined into the
fields that use them. -/
def process_suggestion (current_cost : ℚ) (sugg : Json) : Except PyErr ProcSugg :=
  match sugg with
  | .obj sf =>
    match lookupKey sf "estimatedCost" with
    | none => .error (.keyError "estimatedCost")
    | some ec =>
      match ec.asNumber with
      | none => .error (.typeError "unsupported operand type for -")
      | some ecq =>
        match lookupKey sf "name" with
        | none => .error (.keyError "name")
        | some nm =>
          match lookupKey sf "rationale" with
          | none => .error (.keyError "rationale")
          | some rat =>
            .ok { suggestedItemId := none
                  name := nm
                  estimatedCost := ec
                  costSavings := pyRound (current_cost - ecq) 2
                  savingsPercent :=
                    pyRound (if current_cost > 0 then
                      (current_cost - ecq) / current_cost * 100 else 0) 1
                  confidence := (lookupKey sf "confidence").getD (.num (7/10))
                  rationale := rat }
  | _ => .error (.typeError "string indices must be integers")

/-- Lines 156-190 for one matched entry (`fields` is the entry's dict,
`original` the request item found by identifier): process the first three
suggestions, then build the result dict.  Error order follows the source:
suggestion processing, then the `item_result['name']` subscript, then the
`removal.get(...)` calls (an `AttributeError`-like failure when the model's
`removalSuggestion` is not a dict).  The pure local assignments
`never_used` and `removal` are inlined into their use sites. -/
def process_matched (fields : List (String × Json)) (original : ItemInput) :
    Except PyErr ProcItem :=
  match pySliceTake3 ((lookupKey fields "suggestions").getD (.arr [])) with
  | .error e => .error e
  | .ok suggJs =>
  match mapExcept (process_suggestion original.currentCost) suggJs with
  | .error e => .error e
  | .ok suggestions =>
  match lookupKey fields "name" with
  | none => .error (.keyError "name")
  | some nm =>
    match (lookupKey fields "removalSuggestion").getD (.obj []) with
    | .obj rf =>
      .ok { itemId := original.itemId
            name := nm
            currentCost := original.currentCost
            lastUsed := original.lastUsed
            neverUsedFlag := (lookupKey fields "neverUsedFlag").getD (.bool false)
            suggestions := suggestions
            removal_recommended :=
              (lookupKey rf "recommended").getD
                ((lookupKey fields "neverUsedFlag").getD (.bool false))
            removal_reason := (lookupKey rf "reason").getD .null
            actionableCheckboxId :=
              if truthy ((lookupKey rf "recommended").getD .null) then
                some ("chk_" ++ original.itemId)
              else none }
    | _ => .error (.typeError "object has no attribute get")

/-- Lines 145-154: one loop iteration.  `item_result['itemId']` is looked
up (a `KeyError` when absent, a `TypeError` when the entry is not a dict),
the matching original item is searched with Python `==`, and an unmatched
entry is skipped (`continue`), encoded as `.ok none`. -/
def process_entry (original_items : List ItemInput) (item_result : Json) :
    Except PyErr (Option ProcItem) :=
  match item_result with
  | .obj fields =>
    match lookupKey fields "itemId" with
    | none => .error (.keyError "itemId")
    | some v =>
      match original_items.find? (fun i => pyEqStr i.itemId v) with
      | none => .ok none
      | some original => (process_matched fields original).map some
  | _ => .error (.typeError "item_result is not a dict")

/-- `gemini_result.get("items", [])` followed by the `for` loop's implicit
iteration. -/
def getItemsFromGemini (gemini_result : Json) : Except PyErr (List Json) :=
  match gemini_result with
  | .obj fields =>
    match lookupKey fields "items" with
    | none => .ok []
    | some v => pyIter v
  | _ => .error (.typeError "object has no attribute get")

/-- The `for item_result in items_from_gemini` loop: one
`processed_items.append` per matched entry, `continue` (no append) on a
skipped entry, stop at the first raised exception. -/
def process_items_loop (original_items : List ItemInput) :
    List Json → Except PyErr (List ProcItem)
  | [] => .ok []
  | item_result :: rest =>
    match process_entry original_items item_result with
    | .error e => .error e
    | .ok none => process_items_loop original_items rest
    | .ok (some p) =>
      match process_items_loop original_items rest with
      | .error e => .error e
      | .ok l => .ok (p :: l)

/-- `GeminiService._process_gemini_response`: iterate over the model's
items, skipping entries whose identifier is not in the original request,
and return the processed list wrapped as `{"items": processed_items}`
(rendered as the bare list). -/
def process_gemini_response (gemini_result : Json) (original_items : List ItemInput) :
    Except PyErr (List ProcItem) :=
  match getItemsFromGemini gemini_result with
  | .error e => .error e
  | .ok items_from_gemini => process_items_loop original_items items_from_gemini

/-- Lines 73-78 of `generate_suggestions` in `gemini_service.py`, after the
completion call returned `raw_text`: extract JSON, then post-process.  The
surrounding handlers re-raise every exception of interest unchanged (the
`json.JSONDecodeError` clause is unreachable because `_extract_json`
already converts parse failures to `ValueError`). -/
def gemini_extract_and_process (raw_text : String) (items : List ItemInput) :
    Except PyErr (List ProcItem) :=
  match extract_json raw_text with
  | .error e => .error e
  | .ok result => process_gemini_response result items

/-! ### Typed response models (`app/models.py`)

`MetaInfo` (timestamp, model name, wall-clock execution time) is
environment data and is not embedded. -/

/-- `app.models.AlternativeSuggestion`. -/
structure AlternativeSuggestion where
  suggestedItemId : Option String
  name : String
  estimatedCost : ℚ
  costSavings : ℚ
  savingsPercent : ℚ
  confidence : ℚ
  rationale : String

/-- `app.models.RemovalSuggestion`. -/
structure RemovalSuggestion where
  recommended : Bool
  reason : Option String
  actionableCheckboxId : Option String

/-- `app.models.ItemAnalysis`. -/
structure ItemAnalysis where
  itemId : String
  name : String
  currentCost : ℚ
  lastUsed : Option String
  neverUsedFlag : Bool
  suggestions : List AlternativeSuggestion
  removalSuggestion : RemovalSuggestion

/-- `app.models.UIHints` (pagination rendered as page/pageSize). -/
structure UIHints where
  displayMode : String
  priorityItems : List String
  pagination : ℕ × ℕ

/-- `app.models.SuggestionRequest`. -/
structure SuggestionRequest where
  spcId : String
  subGrid : String
  items : List ItemInput
  procedureType : Option String := none
  facilityId : Option String := none

/-- `app.models.SuggestionResponse`, without the `meta` block. -/
structure SuggestionResponse where
  spcId : String
  subGrid : String
  itemsAnalyzed : List ItemAnalysis
  summary : String
  uiHints : UIHints

/-! ### `build_summary_prompt` (`app/prompts.py`, lines 73-86) -/

/-- Python `max(l, default := d)`: the maximum of a nonempty list, the
default otherwise. -/
def pyMax (l : List ℚ) (d : ℚ) : ℚ :=
  match l with
  | [] => d
  | x :: xs => xs.foldl max x

/-- Python `round`-free rendering of `f"..{x:.2f}"`: round half to even at
two decimals and print sign, integer part, a point, and exactly two
digits. -/
def twoFracDigits (n : ℕ) : String :=
  String.mk [Nat.digitChar (n / 10), Nat.digitChar (n % 10)]

/-- `f"{q:.2f}"` over exact rationals. -/
def formatMoney2 (q : ℚ) : String :=
  let c : ℤ := roundHalfEven (q * 100)
  let sign := if c < 0 then "-" else ""
  let a := c.natAbs
  sign ++ toString (a / 100) ++ "." ++ twoFracDigits (a % 100)

/-- `build_summary_prompt(analysis_results)`: the handler calls it on the
`model_dump()` of each `ItemAnalysis`, so the argument is typed.  The
Python `sum(1 for item in .. if cond)` generators become
filter-then-count-ones sums; `item.get('suggestions')` truthiness is list
nonemptiness and `item.get('neverUsedFlag')` is the boolean flag. -/
def build_summary_prompt (analysis_results : List ItemAnalysis) : String :=
  let total_items := analysis_results.length
  let items_with_suggestions :=
    ((analysis_results.filter (fun item => !item.suggestions.isEmpty)).map
      (fun _ => (1 : ℕ))).sum
  let removal_candidates :=
    ((analysis_results.filter (fun item => item.neverUsedFlag)).map
      (fun _ => (1 : ℕ))).sum
  let total_potential_savings :=
    ((analysis_results.filter (fun item => !item.suggestions.isEmpty)).map
      (fun item => pyMax (item.suggestions.map (fun s => s.costSavings)) 0)).sum
  "Analyzed " ++ toString total_items ++
    " items. Found cost-saving alternatives for " ++ toString items_with_suggestions ++
    " items with potential savings of $" ++ formatMoney2 total_potential_savings ++
    ". Identified " ++ toString removal_candidates ++
    " never-used items recommended for removal."

/-! ### The request handler (`main.py`, `generate_suggestions`)

The opaque part — the Gemini network call plus the
`ItemAnalysis(**item_data)` pydantic mapping — is a `provider` parameter;
theorems about validation quantify over it (a conclusion that holds for
every provider is one that cannot depend on the provider being invoked). -/

/-- Lines 114-122: `max([s.costSavings for s in item.suggestions])`; the
empty case cannot occur under the `if item.suggestions:` guard. -/
def max_savings_of (suggestions : List AlternativeSuggestion) : ℚ :=
  pyMax (suggestions.map (fun s => s.costSavings)) 0

/-- Lines 114-122: the priority-item accumulation loop.  An item appends
its identifier once when its best suggestion saves strictly more than 50,
and once more when its removal is recommended; no deduplication. -/
def priority_items_of (items_analyzed : List ItemAnalysis) : List String :=
  items_analyzed.foldl
    (fun priority_items item =>
      let priority_items :=
        if item.suggestions.isEmpty = false ∧ max_savings_of item.suggestions > 50 then
          priority_items ++ [item.itemId]
        else priority_items
      if item.removalSuggestion.recommended then priority_items ++ [item.itemId]
      else priority_items)
    []

/-- What escapes the `try` block of the endpoint: either an
`HTTPException` raised for validation (it is an `Exception` subclass, so
the generic handler catches it too) or a Python exception from the
pipeline. -/
inductive TryErr where
  | http (status_code : ℕ) (detail : String)
  | py (e : PyErr)

/-- `str(e)` for the exceptions reaching the `except` clauses;
`str(KeyError(k))` is the key in repr quotes. -/
def str_of_pyerr : PyErr → String
  | .valueError m => m
  | .keyError k => (Char.ofNat 39).toString ++ k ++ (Char.ofNat 39).toString
  | .typeError m => m

/-- `POST /api/spc/suggestions` (`main.py` lines 62-159).  The `try` body
validates the item count, calls the provider, builds summary, priority
items and the response; `except ValueError` maps to 422 and
`except Exception` maps to 500 with `"Internal server error: " + str(e)` —
including the validation `HTTPException`s raised inside the `try`, whose
`str()` is `"{status_code}: {detail}"`. -/
def generate_suggestions
    (provider : List ItemInput → Except PyErr (List ItemAnalysis))
    (request : SuggestionRequest) : Except (ℕ × String) SuggestionResponse :=
  let body : Except TryErr SuggestionResponse :=
    if request.items.isEmpty then .error (.http 400 "No items provided for analysis")
    else if request.items.length > 50 then .error (.http 400 "Maximum 50 items per request")
    else
      match provider request.items with
      | .error e => .error (.py e)
      | .ok items_analyzed =>
        let summary := build_summary_prompt items_analyzed
        let priority_items := priority_items_of items_analyzed
        .ok { spcId := request.spcId
              subGrid := request.subGrid
              itemsAnalyzed := items_analyzed
              summary := summary
              uiHints :=
                { displayMode := "panel"
                  priorityItems := priority_items.take 5
                  pagination := (1, items_analyzed.length) } }
  match body with
  | .ok r => .ok r
  | .error (.py (.valueError m)) => .error (422, m)
  | .error (.http code detail) =>
    .error (500, "Internal server error: " ++ toString code ++ ": " ++ detail)
  | .error (.py e) => .error (500, "Internal server error: " ++ str_of_pyerr e)

/-! ### The pydantic step `ItemAnalysis(**item_data)`

Used to build the concrete provider of the end-to-end statements.  The
coercions are restricted to the exact shapes a `ProcItem` can carry; a
mismatch is pydantic's `ValidationError`, which subclasses `ValueError`. -/

/-- Validate one processed suggestion dict against
`app.models.AlternativeSuggestion` (`confidence` carries
`Field(ge=0, le=1)`). -/
def pydantic_sugg (s : ProcSugg) : Except PyErr AlternativeSuggestion :=
  match s.name, s.estimatedCost, s.confidence, s.rationale with
  | .str nm, .num ec, .num cf, .str rat =>
    if 0 ≤ cf ∧ cf ≤ 1 then
      .ok { suggestedItemId := s.suggestedItemId
            name := nm
            estimatedCost := ec
            costSavings := s.costSavings
            savingsPercent := s.savingsPercent
            confidence := cf
            rationale := rat }
    else .error (.valueError "validation error")
  | _, _, _, _ => .error (.valueError "validation error")

/-- Validate one processed item dict against `app.models.ItemAnalysis`. -/
def pydantic_item (p : ProcItem) : Except PyErr ItemAnalysis :=
  match p.name, p.neverUsedFlag, p.removal_recommended, p.removal_reason with
  | .str nm, .bool nu, .bool rec, reasonJ =>
    match (match reasonJ with
           | .null => some none
           | .str r => some (some r)
           | _ => none : Option (Option String)) with
    | none => .error (.valueError "validation error")
    | some reason =>
      match mapExcept pydantic_sugg p.suggestions with
      | .error e => .error e
      | .ok suggs =>
        .ok { itemId := p.itemId
              name := nm
              currentCost := p.currentCost
              lastUsed := p.lastUsed
              neverUsedFlag := nu
              suggestions := suggs
              removalSuggestion :=
                { recommended := rec
                  reason := reason
                  actionableCheckboxId := p.actionableCheckboxId } }
  | _, _, _, _ => .error (.valueError "validation error")

/-- The deployed provider: Gemini returns `raw_text`, the service extracts
and projects it, and `main.py` maps the dicts through pydantic. -/
def pipeline_provider (raw_text : String) (items : List ItemInput) :
    Except PyErr (List ItemAnalysis) :=
  match gemini_extract_and_process raw_text items with
  | .error e => .error e
  | .ok procItems => mapExcept pydantic_item procItems

/-! ## Shared concrete inputs for witnesses and counterexamples

The end-to-end example of the spec (one item `A1`/"Gauze" at cost 10, the
model suggesting "Generic Gauze" at 6). -/

/-- The request item of the spec's end-to-end example. -/
def gauze : ItemInput :=
  { itemId := "A1"
    name := "Gauze"
    currentCost := 10
    lastUsed := some "never" }

/-- The fields of the model's suggestion in the end-to-end example. -/
def genericGauzeSuggFields : List (String × Json) := [
  ("name", Json.str "Generic Gauze"), ("estimatedCost", Json.num 6),
  ("confidence", Json.num (8/10)), ("rationale", Json.str "cheaper equivalent")]

/-- The fields of the single item entry in the model's answer. -/
def gauzeModelEntryFields : List (String × Json) := [
  ("itemId", Json.str "A1"), ("name", Json.str "Gauze"), ("neverUsedFlag", Json.bool true),
  ("suggestions", Json.arr [Json.obj genericGauzeSuggFields]),
  ("removalSuggestion", Json.obj [("recommended", Json.bool true),
    ("reason", Json.str "never used")])]

/-- The parsed model output of the spec's end-to-end example. -/
def gauzeModelOutput : Json :=
  Json.obj [("items", Json.arr [Json.obj gauzeModelEntryFields])]

/-- The processed form of the example's suggestion: savings 4 on cost 10,
hence 40 percent. -/
def genericGauzeProcessedSugg : ProcSugg :=
  { suggestedItemId := none
    name := Json.str "Generic Gauze"
    estimatedCost := Json.num 6
    costSavings := 4
    savingsPercent := 40
    confidence := Json.num (8/10)
    rationale := Json.str "cheaper equivalent" }

/-- The projector's output on the end-to-end example. -/
def gauzeProcessed : ProcItem :=
  { itemId := "A1"
    name := Json.str "Gauze"
    currentCost := 10
    lastUsed := some "never"
    neverUsedFlag := Json.bool true
    suggestions := [genericGauzeProcessedSugg]
    removal_recommended := Json.bool true
    removal_reason := Json.str "never used"
    actionableCheckboxId := some "chk_A1" }

/-- A model response wrapped in a fenced code block amid prose. -/
def fencedNoiseText : String := "noise ```json\n\x7b\"items\":[]\x7d\n``` trailing"

/-! ## Inversion lemmas for the projector -/

/-- Everything a successful `process_matched` determines about its result:
the identity fields come from the original item, `name` from the model
entry, the removal fields from the model's `removalSuggestion` dict (with
the checkbox keyed on the raw, default-free `recommended` lookup), and the
suggestions from the sliced model array. -/
theorem process_matched_ok_inv (fields : List (String × Json)) (original : ItemInput)
    (a : ProcItem) (h : process_matched fields original = .ok a) :
    a.itemId = original.itemId ∧ a.currentCost = original.currentCost ∧
    a.lastUsed = original.lastUsed ∧ lookupKey fields "name" = some a.name ∧
    a.neverUsedFlag = (lookupKey fields "neverUsedFlag").getD (.bool false) ∧
    (∃ rf, (lookupKey fields "removalSuggestion").getD (.obj []) = .obj rf ∧
      a.removal_recommended = (lookupKey rf "recommended").getD
        ((lookupKey fields "neverUsedFlag").getD (.bool false)) ∧
      a.actionableCheckboxId = (if truthy ((lookupKey rf "recommended").getD .null) then
        some ("chk_" ++ original.itemId) else none)) ∧
    (∃ suggJs, pySliceTake3 ((lookupKey fields "suggestions").getD (.arr [])) = .ok suggJs ∧
      mapExcept (process_suggestion original.currentCost) suggJs = .ok a.suggestions) := by
  unfold process_matched at h
  split at h
  · exact absurd h (by simp)
  next suggJs hslice =>
    split at h
    · exact absurd h (by simp)
    next suggs hmap =>
      split at h
      · exact absurd h (by simp)
      next nm hname =>
        split at h
        next rf hremoval =>
          cases h
          exact ⟨rfl, rfl, rfl, hname, rfl, ⟨rf, hremoval, rfl, rfl⟩, ⟨suggJs, hslice, hmap⟩⟩
        next => exact absurd h (by simp)

/-- A loop entry that produced a result was a dict whose `itemId` matched
an original item. -/
theorem process_entry_ok_some_inv (original_items : List ItemInput) (j : Json) (a : ProcItem)
    (h : process_entry original_items j = .ok (some a)) :
    ∃ fields v original, j = .obj fields ∧ lookupKey fields "itemId" = some v ∧
      original_items.find? (fun i => pyEqStr i.itemId v) = some original ∧
      process_matched fields original = .ok a := by
  cases j with
  | obj fields =>
    simp only [process_entry] at h
    split at h
    · exact absurd h (by simp)
    next v hv =>
      split at h
      · exact absurd h (by simp)
      next original hfind =>
        cases hm : process_matched fields original with
        | error e => rw [hm] at h; exact absurd h (by simp [Except.map])
        | ok b =>
          rw [hm] at h
          simp only [Except.map, Option.some.injEq, Except.ok.injEq] at h
          exact ⟨fields, v, original, rfl, hv, hfind, by rw [hm, h]⟩
  | null => exact absurd h (by simp [process_entry])
  | bool b => exact absurd h (by simp [process_entry])
  | num q => exact absurd h (by simp [process_entry])
  | str s => exact absurd h (by simp [process_entry])
  | arr l => exact absurd h (by simp [process_entry])

/-- Every item of a successful loop result was produced by some entry of
the input list. -/
theorem process_items_loop_mem (original_items : List ItemInput) (l : List Json)
    (r : List ProcItem) (h : process_items_loop original_items l = .ok r) :
    ∀ a ∈ r, ∃ j ∈ l, process_entry original_items j = .ok (some a) := by
  induction l generalizing r with
  | nil =>
    simp only [process_items_loop, Except.ok.injEq] at h
    subst h; simp
  | cons j rest ih =>
    unfold process_items_loop at h
    split at h
    · exact absurd h (by simp)
    · intro a ha
      obtain ⟨j', hj', he⟩ := ih _ h a ha
      exact ⟨j', List.mem_cons_of_mem _ hj', he⟩
    next p hp =>
      split at h
      · exact absurd h (by simp)
      next l' hl' =>
        simp only [Except.ok.injEq] at h
        subst h
        intro a ha
        rcases List.mem_cons.mp ha with rfl | hmem
        · exact ⟨j, List.mem_cons_self _ _, hp⟩
        · obtain ⟨j', hj', he⟩ := ih _ hl' a hmem
          exact ⟨j', List.mem_cons_of_mem _ hj', he⟩

/-- An entry that is a dict whose `itemId` matches no original item is
skipped: the loop result is as if the entry were absent. -/
theorem process_items_loop_skip (original_items : List ItemInput) (pre post : List Json)
    (fields : List (String × Json)) (v : Json)
    (hv : lookupKey fields "itemId" = some v)
    (hnone : ∀ i ∈ original_items, pyEqStr i.itemId v = false) :
    process_items_loop original_items (pre ++ Json.obj fields :: post) =
      process_items_loop original_items (pre ++ post) := by
  have hfind : original_items.find? (fun i => pyEqStr i.itemId v) = none :=
    List.find?_eq_none.mpr (by intro i hi; simpa using hnone i hi)
  have hentry : process_entry original_items (Json.obj fields) = .ok none := by
    simp only [process_entry, hv, hfind]
  induction pre with
  | nil => simp only [List.nil_append, process_items_loop, hentry]
  | cons j pre ih =>
    simp only [List.cons_append]
    unfold process_items_loop
    rw [ih]

/-! ## Claims -/

/-- C1 (confirmed).  `_extract_json` applies exactly the three strategies
in strict order — parse the stripped text, parse the fenced-block capture,
parse the first-brace-to-last-brace substring — returning the first
successful parse and raising the malformed-response `ValueError` only when
all three fail (each individual parse failure is swallowed).  In
particular, pure JSON is returned parsed, fenced JSON with surrounding
prose is recovered, and text with no recoverable JSON object raises. -/
theorem extract_json_strategy_order :
    (∀ text : String,
      extract_json text =
        match strategy1 (pyStrip text.data) <|> strategy2 (pyStrip text.data) <|>
            strategy3 (pyStrip text.data) with
        | some j => .ok j
        | none => .error (.valueError malformedResponseMsg))
    ∧ extract_json " \x7b\"items\": []\x7d " = .ok (Json.obj [("items", Json.arr [])])
    ∧ extract_json fencedNoiseText = .ok (Json.obj [("items", Json.arr [])])
    ∧ extract_json "I cannot help with that" = .error (.valueError malformedResponseMsg) := by
  refine ⟨?_, rfl, rfl, rfl⟩
  intro text
  have key : ∀ (o₁ o₂ o₃ : Option Json),
      (match o₁ with
       | some j => (Except.ok j : Except PyErr Json)
       | none =>
         match o₂ with
         | some j => .ok j
         | none =>
           match o₃ with
           | some j => .ok j
           | none => .error (.valueError malformedResponseMsg)) =
      (match o₁ <|> o₂ <|> o₃ with
       | some j => .ok j
       | none => .error (.valueError malformedResponseMsg)) := by
    intro o₁ o₂ o₃
    cases o₁ <;> cases o₂ <;> cases o₃ <;> rfl
  exact key _ _ _

end POC

namespace POC

/-- C2 (confirmed).  Every `ItemAnalysis` the projector emits has an
`itemId` drawn from the original request's items, and a model entry whose
identifier matches no request item is skipped entirely — dropped, never
fabricated — leaving the rest of the output unchanged. -/
theorem projector_keeps_only_request_ids :
    (∀ (gemini_result : Json) (original_items : List ItemInput) (r : List ProcItem),
        process_gemini_response gemini_result original_items = .ok r →
        ∀ a ∈ r, a.itemId ∈ original_items.map ItemInput.itemId)
    ∧ (∀ (original_items : List ItemInput) (pre post : List Json)
          (fields : List (String × Json)) (v : Json),
        lookupKey fields "itemId" = some v →
        (∀ i ∈ original_items, pyEqStr i.itemId v = false) →
        process_gemini_response
            (Json.obj [("items", Json.arr (pre ++ Json.obj fields :: post))]) original_items =
          process_gemini_response
            (Json.obj [("items", Json.arr (pre ++ post))]) original_items) := by
  constructor
  · intro gemini_result original_items r h a ha
    unfold process_gemini_response at h
    split at h
    · exact absurd h (by simp)
    next items hitems =>
      obtain ⟨j, _, he⟩ := process_items_loop_mem original_items items r h a ha
      obtain ⟨fields, v, original, rfl, hv, hfind, hm⟩ :=
        process_entry_ok_some_inv original_items j a he
      obtain ⟨hid, -⟩ := process_matched_ok_inv fields original a hm
      exact hid ▸ List.mem_map.mpr ⟨original, List.mem_of_find?_eq_some hfind, rfl⟩
  · intro original_items pre post fields v hv hnone
    exact process_items_loop_skip original_items pre post fields v hv hnone

/-- Witness for C2: the end-to-end example's output identifier is the
request's identifier, and an entry with the unknown identifier `ZZ` is
dropped. -/
theorem projector_keeps_only_request_ids_witness :
    gauzeProcessed.itemId ∈ [gauze].map ItemInput.itemId ∧
    process_gemini_response
        (Json.obj [("items", Json.arr [Json.obj [("itemId", Json.str "ZZ")]])]) [gauze] =
      process_gemini_response (Json.obj [("items", Json.arr [])]) [gauze] := by
  constructor
  · exact projector_keeps_only_request_ids.1 gauzeModelOutput [gauze] [gauzeProcessed]
      (by with_unfolding_all rfl) gauzeProcessed (List.mem_singleton.mpr rfl)
  · exact projector_keeps_only_request_ids.2 [gauze] [] []
      [("itemId", Json.str "ZZ")] (Json.str "ZZ") rfl
      (by intro i hi; rw [List.mem_singleton.mp hi]; rfl)

end POC

namespace POC

/-- A model answer that renames the item: same identifier `A1`, but a
`name` different from the request item's. -/
def gauzeRenamedModelOutput : Json := Json.obj [("items", Json.arr [Json.obj [
  ("itemId", Json.str "A1"), ("name", Json.str "Brand X Gauze"),
  ("suggestions", Json.arr []),
  ("removalSuggestion", Json.obj [("recommended", Json.bool false)])]])]

/-- The projector's output on `gauzeRenamedModelOutput`: the `name` is the
model's, not the request's. -/
def gauzeRenamedProcessed : ProcItem :=
  { itemId := "A1"
    name := Json.str "Brand X Gauze"
    currentCost := 10
    lastUsed := some "never"
    neverUsedFlag := Json.bool false
    suggestions := []
    removal_recommended := Json.bool false
    removal_reason := Json.null
    actionableCheckboxId := none }

/-- Counterexample to C5: the request item is named `Gauze`, the model
entry says `Brand X Gauze`, and the projected analysis carries the model's
name — `name` is not copied from the original item. -/
theorem projector_name_from_model_counterexample :
    process_gemini_response gauzeRenamedModelOutput [gauze] = .ok [gauzeRenamedProcessed] ∧
    gauzeRenamedProcessed.name = Json.str "Brand X Gauze" ∧
    gauze.name = "Gauze" ∧
    gauzeRenamedProcessed.name ≠ Json.str gauze.name := by
  refine ⟨by with_unfolding_all rfl, rfl, rfl, ?_⟩
  intro h
  injection h with h'
  exact absurd h' (by decide)

/-- C5 (corrected).  For every analysis the projector emits, `itemId`,
`currentCost` and `lastUsed` are copied from the matching original request
item — but `name` is taken from the model's entry
(`item_result['name']`), not from the original. -/
theorem projector_identity_fields_sources :
    ∀ (original_items : List ItemInput) (j : Json) (a : ProcItem),
      process_entry original_items j = .ok (some a) →
      ∃ fields original, j = .obj fields ∧ original ∈ original_items ∧
        a.itemId = original.itemId ∧ a.currentCost = original.currentCost ∧
        a.lastUsed = original.lastUsed ∧
        lookupKey fields "name" = some a.name := by
  intro original_items j a h
  obtain ⟨fields, v, original, rfl, hv, hfind, hm⟩ :=
    process_entry_ok_some_inv original_items _ a h
  obtain ⟨hid, hcc, hlu, hname, -⟩ := process_matched_ok_inv fields original a hm
  exact ⟨fields, original, rfl, List.mem_of_find?_eq_some hfind, hid, hcc, hlu, hname⟩

/-- Witness for C5's amended statement, at the renamed end-to-end input. -/
theorem projector_identity_fields_sources_witness :
    ∃ fields original,
      Json.obj gauzeModelEntryFields = Json.obj fields ∧ original ∈ [gauze] ∧
      gauzeProcessed.itemId = original.itemId ∧
      gauzeProcessed.currentCost = original.currentCost ∧
      gauzeProcessed.lastUsed = original.lastUsed ∧
      lookupKey fields "name" = some gauzeProcessed.name :=
  projector_identity_fields_sources [gauze] (Json.obj gauzeModelEntryFields) gauzeProcessed
    (by with_unfolding_all rfl)

end POC

namespace POC

/-- A model entry that flags the item never-used but omits the explicit
`recommended` value inside `removalSuggestion`. -/
def neverUsedFallbackEntry : Json := Json.obj [
  ("itemId", Json.str "A1"), ("name", Json.str "Gauze"),
  ("neverUsedFlag", Json.bool true), ("suggestions", Json.arr []),
  ("removalSuggestion", Json.obj [])]

/-- Projection of `neverUsedFallbackEntry`: `recommended` falls back to the
never-used flag (true), yet the checkbox id stays null because the
checkbox line reads `removal.get('recommended')` without that fallback. -/
def neverUsedFallbackProcessed : ProcItem :=
  { itemId := "A1"
    name := Json.str "Gauze"
    currentCost := 10
    lastUsed := some "never"
    neverUsedFlag := Json.bool true
    suggestions := []
    removal_recommended := Json.bool true
    removal_reason := Json.null
    actionableCheckboxId := none }

/-- Counterexample to C4: an analysis whose `removalSuggestion.recommended`
is true (by the never-used fallback) while `actionableCheckboxId` is null —
the claimed iff fails. -/
theorem removal_checkbox_iff_counterexample :
    process_gemini_response (Json.obj [("items", Json.arr [neverUsedFallbackEntry])]) [gauze] =
      .ok [neverUsedFallbackProcessed] ∧
    neverUsedFallbackProcessed.removal_recommended = Json.bool true ∧
    neverUsedFallbackProcessed.actionableCheckboxId = none :=
  ⟨by with_unfolding_all rfl, rfl, rfl⟩

/-- C4 (corrected).  `removalSuggestion.recommended` is the model's
explicit value when present, else the never-used flag; but
`actionableCheckboxId` is keyed on the raw `removal.get('recommended')`
with no fallback: it is `chk_<itemId>` exactly when the model explicitly
sent a truthy `recommended`, and null otherwise — even when `recommended`
became true via the fallback.  When the checkbox is set, `recommended` is
truthy and the id is `chk_` plus the item identifier. -/
theorem removal_checkbox_semantics :
    ∀ (original_items : List ItemInput) (j : Json) (a : ProcItem),
      process_entry original_items j = .ok (some a) →
      ∃ fields rf, j = .obj fields ∧
        (lookupKey fields "removalSuggestion").getD (.obj []) = .obj rf ∧
        a.removal_recommended = (lookupKey rf "recommended").getD
          ((lookupKey fields "neverUsedFlag").getD (.bool false)) ∧
        a.actionableCheckboxId =
          (if truthy ((lookupKey rf "recommended").getD .null) then
            some ("chk_" ++ a.itemId) else none) ∧
        (∀ s, a.actionableCheckboxId = some s →
          truthy a.removal_recommended = true ∧ s = "chk_" ++ a.itemId) := by
  intro original_items j a h
  obtain ⟨fields, v, original, rfl, hv, hfind, hm⟩ :=
    process_entry_ok_some_inv original_items _ a h
  obtain ⟨hid, -, -, -, -, ⟨rf, hrf, hrec, hbox⟩, -⟩ :=
    process_matched_ok_inv fields original a hm
  refine ⟨fields, rf, rfl, hrf, hrec, by rw [hbox, hid], ?_⟩
  intro s hs
  cases hl : lookupKey rf "recommended" with
  | none =>
    rw [hbox, hl] at hs
    simp [truthy] at hs
  | some w =>
    rw [hbox, hl] at hs
    by_cases hw : truthy w = true
    · rw [if_pos (by simpa using hw)] at hs
      refine ⟨?_, by rw [hid]; simpa using hs.symm⟩
      rw [hrec, hl]
      simpa using hw
    · rw [if_neg (by simpa using hw)] at hs
      cases hs

/-- Witness for C4's amended statement, at the fallback input. -/
theorem removal_checkbox_semantics_witness :
    ∃ fields rf, neverUsedFallbackEntry = Json.obj fields ∧
      (lookupKey fields "removalSuggestion").getD (.obj []) = .obj rf ∧
      neverUsedFallbackProcessed.removal_recommended = (lookupKey rf "recommended").getD
        ((lookupKey fields "neverUsedFlag").getD (.bool false)) ∧
      neverUsedFallbackProcessed.actionableCheckboxId =
        (if truthy ((lookupKey rf "recommended").getD .null) then
          some ("chk_" ++ neverUsedFallbackProcessed.itemId) else none) ∧
      (∀ s, neverUsedFallbackProcessed.actionableCheckboxId = some s →
        truthy neverUsedFallbackProcessed.removal_recommended = true ∧
        s = "chk_" ++ neverUsedFallbackProcessed.itemId) :=
  removal_checkbox_semantics [gauze] neverUsedFallbackEntry neverUsedFallbackProcessed
    (by with_unfolding_all rfl)

end POC

namespace POC

/-- A successful `mapExcept` maps the whole list: nothing is dropped. -/
theorem mapExcept_ok_length {α β : Type} (f : α → Except PyErr β) (l : List α)
    (ys : List β) (h : mapExcept f l = .ok ys) : ys.length = l.length := by
  induction l generalizing ys with
  | nil =>
    simp only [mapExcept, Except.ok.injEq] at h
    subst h; rfl
  | cons x xs ih =>
    unfold mapExcept at h
    split at h
    · exact absurd h (by simp)
    next y hy =>
      split at h
      · exact absurd h (by simp)
      next ys' hys' =>
        simp only [Except.ok.injEq] at h
        subst h
        simp [ih _ hys']

/-- Counterexample to C3 as literally stated: with `currentCost = 1` and
`estimatedCost = 0.995`, the stored `costSavings` rounds to 0, so the
claim's formula `round(costSavings/currentCost*100, 1)` gives 0, but the
code computes the percentage from the unrounded difference and stores
0.5. -/
theorem savings_percent_rounding_counterexample :
    process_suggestion 1 (Json.obj [("name", Json.str "alt"),
        ("estimatedCost", Json.num (199/200)), ("rationale", Json.str "r")]) = .ok
      { suggestedItemId := none
        name := Json.str "alt"
        estimatedCost := Json.num (199/200)
        costSavings := 0
        savingsPercent := 1/2
        confidence := Json.num (7/10)
        rationale := Json.str "r" } ∧
    pyRound ((0 : ℚ) / 1 * 100) 1 = 0 ∧ ((1/2 : ℚ)) ≠ 0 :=
  ⟨by with_unfolding_all rfl, by with_unfolding_all rfl, by norm_num⟩

/-- C3 (corrected).  Each retained suggestion stores
`costSavings = round(currentCost − estimatedCost, 2)`,
`savingsPercent = round((currentCost − estimatedCost)/currentCost × 100, 1)`
computed from the *unrounded* difference (0 when `currentCost ≤ 0`), uses
the original item's `currentCost`, and defaults `confidence` to 0.7; and
per item the projector keeps exactly the first three model suggestions in
model order. -/
theorem suggestion_savings_formulas :
    (∀ (c : ℚ) (sf : List (String × Json)) (ps : ProcSugg),
      process_suggestion c (.obj sf) = .ok ps →
      ∃ ec ecq, lookupKey sf "estimatedCost" = some ec ∧ Json.asNumber ec = some ecq ∧
        ps.estimatedCost = ec ∧
        ps.costSavings = pyRound (c - ecq) 2 ∧
        ps.savingsPercent = pyRound (if c > 0 then (c - ecq) / c * 100 else 0) 1 ∧
        ps.confidence = (lookupKey sf "confidence").getD (.num (7/10)) ∧
        lookupKey sf "name" = some ps.name ∧ lookupKey sf "rationale" = some ps.rationale)
    ∧ (∀ (original_items : List ItemInput) (fields : List (String × Json)) (a : ProcItem)
          (l : List Json),
        process_entry original_items (.obj fields) = .ok (some a) →
        lookupKey fields "suggestions" = some (.arr l) →
        mapExcept (process_suggestion a.currentCost) (l.take 3) = .ok a.suggestions ∧
        a.suggestions.length = min 3 l.length) := by
  constructor
  · intro c sf ps h
    simp only [process_suggestion] at h
    split at h
    · exact absurd h (by simp)
    next ec hec =>
      split at h
      · exact absurd h (by simp)
      next ecq hecq =>
        split at h
        · exact absurd h (by simp)
        next nm hnm =>
          split at h
          · exact absurd h (by simp)
          next rat hrat =>
            cases h
            exact ⟨ec, ecq, hec, hecq, rfl, rfl, rfl, rfl, hnm, hrat⟩
  · intro original_items fields a l h hl
    obtain ⟨fields', v, original, heq, hv, hfind, hm⟩ :=
      process_entry_ok_some_inv original_items _ a h
    have hfe : fields = fields' := by simpa using heq
    subst hfe
    obtain ⟨hid, hcc, hlu, hname, hnf, hrem, ⟨suggJs, hslice, hmap⟩⟩ :=
      process_matched_ok_inv fields original a hm
    rw [hl] at hslice
    simp only [Option.getD_some, pySliceTake3, Except.ok.injEq] at hslice
    rw [← hslice] at hmap
    have hlen := mapExcept_ok_length _ _ _ hmap
    refine ⟨by rw [hcc]; exact hmap, ?_⟩
    rw [hlen, List.length_take]

end POC

namespace POC

/-- Witness for C3's amended statement, at the end-to-end example (savings
4 on cost 10, percent 40, confidence taken from the model). -/
theorem suggestion_savings_formulas_witness :
    (∃ ec ecq, lookupKey genericGauzeSuggFields "estimatedCost" = some ec ∧
      Json.asNumber ec = some ecq ∧
      genericGauzeProcessedSugg.estimatedCost = ec ∧
      genericGauzeProcessedSugg.costSavings = pyRound (10 - ecq) 2 ∧
      genericGauzeProcessedSugg.savingsPercent =
        pyRound (if (10 : ℚ) > 0 then (10 - ecq) / 10 * 100 else 0) 1 ∧
      genericGauzeProcessedSugg.confidence =
        (lookupKey genericGauzeSuggFields "confidence").getD (.num (7/10)) ∧
      lookupKey genericGauzeSuggFields "name" = some genericGauzeProcessedSugg.name ∧
      lookupKey genericGauzeSuggFields "rationale" = some genericGauzeProcessedSugg.rationale)
    ∧ (mapExcept (process_suggestion gauzeProcessed.currentCost)
          ([Json.obj genericGauzeSuggFields].take 3) = .ok gauzeProcessed.suggestions ∧
        gauzeProcessed.suggestions.length = min 3 [Json.obj genericGauzeSuggFields].length) := by
  constructor
  · exact suggestion_savings_formulas.1 10 genericGauzeSuggFields genericGauzeProcessedSugg
      (by with_unfolding_all rfl)
  · exact suggestion_savings_formulas.2 [gauze] gauzeModelEntryFields gauzeProcessed
      [Json.obj genericGauzeSuggFields] (by with_unfolding_all rfl) (by with_unfolding_all rfl)

end POC

namespace POC

/-- A model suggestion whose estimated cost (20) exceeds the item's current
cost (10). -/
def overpricedSuggFields : List (String × Json) := [
  ("name", Json.str "Premium Gauze"), ("estimatedCost", Json.num 20),
  ("rationale", Json.str "costs more")]

/-- The retained projection of the overpriced suggestion: savings −10,
percent −100. -/
def overpricedProcessedSugg : ProcSugg :=
  { suggestedItemId := none
    name := Json.str "Premium Gauze"
    estimatedCost := Json.num 20
    costSavings := -10
    savingsPercent := -100
    confidence := Json.num (7/10)
    rationale := Json.str "costs more" }

/-- The model output carrying only the overpriced suggestion for `A1`. -/
def overpricedModelOutput : Json := Json.obj [("items", Json.arr [Json.obj [
  ("itemId", Json.str "A1"), ("name", Json.str "Gauze"),
  ("suggestions", Json.arr [Json.obj overpricedSuggFields]),
  ("removalSuggestion", Json.obj [("recommended", Json.bool false)])]])]

/-- The projected item still containing the overpriced suggestion. -/
def overpricedProcessedItem : ProcItem :=
  { itemId := "A1"
    name := Json.str "Gauze"
    currentCost := 10
    lastUsed := some "never"
    neverUsedFlag := Json.bool false
    suggestions := [overpricedProcessedSugg]
    removal_recommended := Json.bool false
    removal_reason := Json.null
    actionableCheckboxId := none }

/-- C10 (confirmed).  The projector never compares `estimatedCost` with
`currentCost`: a suggestion costing more than the item is retained, and
its computed `costSavings` and `savingsPercent` are negative — not
filtered, clamped, or rejected, at suggestion level and through the whole
projector. -/
theorem negative_savings_retained :
    process_suggestion 10 (Json.obj overpricedSuggFields) = .ok overpricedProcessedSugg ∧
    overpricedProcessedSugg.costSavings < 0 ∧
    overpricedProcessedSugg.savingsPercent < 0 ∧
    process_gemini_response overpricedModelOutput [gauze] = .ok [overpricedProcessedItem] :=
  ⟨by with_unfolding_all rfl, by norm_num [overpricedProcessedSugg],
    by norm_num [overpricedProcessedSugg], by with_unfolding_all rfl⟩

end POC

namespace POC

/-- C6 (code bug).  For an empty item list, and for one of 51 items, the
endpoint never consults the provider (the conclusion holds for every
provider) and the intended `HTTPException(400, ...)` is raised — but it is
then caught by the endpoint's own `except Exception` clause and re-raised
as HTTP 500 with detail `"Internal server error: 400: <detail>"`, so the
client sees 500, not the claimed 400. -/
theorem validation_400_swallowed_to_500 :
    (∀ (provider : List ItemInput → Except PyErr (List ItemAnalysis))
        (spcId subGrid : String) (pt fid : Option String),
      generate_suggestions provider
          { spcId := spcId, subGrid := subGrid, items := [],
            procedureType := pt, facilityId := fid } =
        .error (500, "Internal server error: 400: No items provided for analysis"))
    ∧ (∀ (provider : List ItemInput → Except PyErr (List ItemAnalysis))
        (spcId subGrid : String) (pt fid : Option String),
      generate_suggestions provider
          { spcId := spcId, subGrid := subGrid, items := List.replicate 51 gauze,
            procedureType := pt, facilityId := fid } =
        .error (500, "Internal server error: 400: Maximum 50 items per request")) := by
  constructor <;> (intro provider spcId subGrid pt fid; rfl)

/-- The fixed request envelope used in endpoint-level examples. -/
def spcRequest (items : List ItemInput) : SuggestionRequest :=
  { spcId := "SPC-1"
    subGrid := "Supplies"
    items := items }

/-- A raw model answer whose only retained suggestion lacks the required
`rationale` field. -/
def missingRationaleRaw : String :=
  "\x7b\"items\": [\x7b\"itemId\": \"A1\", \"name\": \"Gauze\", \"suggestions\": [\x7b\"name\": \"alt\", \"estimatedCost\": 6\x7d]\x7d]\x7d"

/-- Counterexample to C7: a retained suggestion missing `rationale` makes
the whole request fail — but with an uncaught `KeyError` mapped by the
generic handler to HTTP 500, not the claimed client-side 422. -/
theorem missing_field_gives_500_counterexample :
    generate_suggestions (pipeline_provider missingRationaleRaw) (spcRequest [gauze]) =
      .error (500, "Internal server error: " ++ str_of_pyerr (.keyError "rationale")) ∧
    (500 : ℕ) ≠ 422 :=
  ⟨by with_unfolding_all rfl, by decide⟩

/-- C7 (corrected).  A retained suggestion missing any of the required
fields `name`, `estimatedCost` or `rationale` aborts the projector: no
suggestion with a missing required field ever succeeds, and following the
source's evaluation order the exception is `KeyError('estimatedCost')`
when `estimatedCost` is absent (line 161, checked first),
`KeyError('name')` when `estimatedCost` is present and numeric but `name`
is absent (line 166), and `KeyError('rationale')` when both are present
but `rationale` is absent (line 171).  Nothing is silently dropped (a
successful suggestion pass maps every retained entry), and the endpoint
turns any `KeyError` escaping the provider into an atomic HTTP 500
failure — a server error, not the claimed `ValidationError`/422. -/
theorem missing_suggestion_field_fails_request :
    (∀ (c : ℚ) (sf : List (String × Json)),
      (lookupKey sf "estimatedCost" = none ∨ lookupKey sf "name" = none ∨
          lookupKey sf "rationale" = none) →
      ∃ e, process_suggestion c (.obj sf) = .error e)
    ∧ (∀ (c : ℚ) (sf : List (String × Json)),
      lookupKey sf "estimatedCost" = none →
      process_suggestion c (.obj sf) = .error (.keyError "estimatedCost"))
    ∧ (∀ (c : ℚ) (sf : List (String × Json)) (ec : Json) (ecq : ℚ),
      lookupKey sf "estimatedCost" = some ec → Json.asNumber ec = some ecq →
      lookupKey sf "name" = none →
      process_suggestion c (.obj sf) = .error (.keyError "name"))
    ∧ (∀ (c : ℚ) (sf : List (String × Json)) (ec : Json) (ecq : ℚ) (nm : Json),
      lookupKey sf "estimatedCost" = some ec → Json.asNumber ec = some ecq →
      lookupKey sf "name" = some nm → lookupKey sf "rationale" = none →
      process_suggestion c (.obj sf) = .error (.keyError "rationale"))
    ∧ (∀ (provider : List ItemInput → Except PyErr (List ItemAnalysis))
        (request : SuggestionRequest) (k : String),
      request.items.isEmpty = false → ¬ (request.items.length > 50) →
      provider request.items = .error (.keyError k) →
      generate_suggestions provider request =
        .error (500, "Internal server error: " ++ str_of_pyerr (.keyError k)))
    ∧ (∀ (c : ℚ) (l : List Json) (ys : List ProcSugg),
      mapExcept (process_suggestion c) l = .ok ys → ys.length = l.length) := by
  refine ⟨?_, ?_, ?_, ?_, ?_, fun c l ys h => mapExcept_ok_length _ l ys h⟩
  · intro c sf hmiss
    cases hec : lookupKey sf "estimatedCost" with
    | none => exact ⟨.keyError "estimatedCost", by simp only [process_suggestion, hec]⟩
    | some ec =>
      cases hecq : Json.asNumber ec with
      | none =>
        exact ⟨.typeError "unsupported operand type for -",
          by simp only [process_suggestion, hec, hecq]⟩
      | some ecq =>
        cases hnm : lookupKey sf "name" with
        | none => exact ⟨.keyError "name", by simp only [process_suggestion, hec, hecq, hnm]⟩
        | some nm =>
          cases hrat : lookupKey sf "rationale" with
          | none =>
            exact ⟨.keyError "rationale",
              by simp only [process_suggestion, hec, hecq, hnm, hrat]⟩
          | some rat =>
            rcases hmiss with h | h | h
            · exact absurd hec (h ▸ by simp)
            · exact absurd hnm (h ▸ by simp)
            · exact absurd hrat (h ▸ by simp)
  · intro c sf hec
    simp only [process_suggestion, hec]
  · intro c sf ec ecq hec hecq hnm
    simp only [process_suggestion, hec, hecq, hnm]
  · intro c sf ec ecq nm h1 h2 h3 h4
    simp only [process_suggestion, h1, h2, h3, h4]
  · intro provider request k hempty hlen hprov
    simp only [generate_suggestions, hempty, Bool.false_eq_true, if_false, if_neg hlen, hprov]

/-- Witness for C7's amended statement: a suggestion missing
`estimatedCost` raises `KeyError('estimatedCost')`, one missing `name`
raises `KeyError('name')`, one missing `rationale` raises
`KeyError('rationale')`, and a provider raising a `KeyError` yields the
500. -/
theorem missing_suggestion_field_fails_request_witness :
    (∃ e, process_suggestion 10
        (Json.obj [("name", Json.str "alt"), ("estimatedCost", Json.num 6)]) = .error e) ∧
    process_suggestion 10
        (Json.obj [("name", Json.str "alt"), ("rationale", Json.str "r")]) =
      .error (.keyError "estimatedCost") ∧
    process_suggestion 10
        (Json.obj [("estimatedCost", Json.num 6), ("rationale", Json.str "r")]) =
      .error (.keyError "name") ∧
    process_suggestion 10
        (Json.obj [("name", Json.str "alt"), ("estimatedCost", Json.num 6)]) =
      .error (.keyError "rationale") ∧
    generate_suggestions (fun _ => .error (.keyError "rationale")) (spcRequest [gauze]) =
      .error (500, "Internal server error: " ++ str_of_pyerr (.keyError "rationale")) ∧
    [genericGauzeProcessedSugg].length = [Json.obj genericGauzeSuggFields].length :=
  ⟨missing_suggestion_field_fails_request.1 10 _ (Or.inr (Or.inr rfl)),
    missing_suggestion_field_fails_request.2.1 10 _ rfl,
    missing_suggestion_field_fails_request.2.2.1 10 _ (Json.num 6) 6 rfl rfl rfl,
    missing_suggestion_field_fails_request.2.2.2.1 10 _ (Json.num 6) 6 (Json.str "alt")
      rfl rfl rfl rfl,
    missing_suggestion_field_fails_request.2.2.2.2.1 _ (spcRequest [gauze]) "rationale"
      rfl (by decide) rfl,
    missing_suggestion_field_fails_request.2.2.2.2.2 10 [Json.obj genericGauzeSuggFields]
      [genericGauzeProcessedSugg] (by with_unfolding_all rfl)⟩

end POC

namespace POC

/-- An element strictly exceeds `c` under a left fold of `max` iff the seed
or some list element does. -/
theorem lt_foldl_max_iff (l : List ℚ) (a c : ℚ) :
    c < l.foldl max a ↔ c < a ∨ ∃ b ∈ l, c < b := by
  induction l generalizing a with
  | nil => simp
  | cons x xs ih =>
    simp only [List.foldl_cons, ih, lt_max_iff, List.mem_cons]
    constructor
    · rintro ((h | h) | ⟨b, hb, hcb⟩)
      · exact Or.inl h
      · exact Or.inr ⟨x, Or.inl rfl, h⟩
      · exact Or.inr ⟨b, Or.inr hb, hcb⟩
    · rintro (h | ⟨b, (rfl | hb), hcb⟩)
      · exact Or.inl (Or.inl h)
      · exact Or.inl (Or.inr hcb)
      · exact Or.inr ⟨b, hb, hcb⟩

/-- The handler's guarded `max(...) > 50` test is exactly "some suggestion
saves strictly more than 50". -/
theorem max_savings_gt_iff (suggestions : List AlternativeSuggestion) :
    (suggestions.isEmpty = false ∧ max_savings_of suggestions > 50) ↔
      ∃ s ∈ suggestions, s.costSavings > 50 := by
  cases suggestions with
  | nil => simp
  | cons x xs =>
    simp only [List.isEmpty_cons, max_savings_of, pyMax, List.map_cons, true_and,
      gt_iff_lt, lt_foldl_max_iff, List.mem_cons, List.mem_map]
    constructor
    · rintro (h | ⟨b, ⟨s, hs, rfl⟩, hb⟩)
      · exact ⟨x, Or.inl rfl, h⟩
      · exact ⟨s, Or.inr hs, hb⟩
    · rintro ⟨s, (rfl | hs), hgt⟩
      · exact Or.inl hgt
      · exact Or.inr ⟨s.costSavings, ⟨s, hs, rfl⟩, hgt⟩

/-- Per-item contribution to the priority list, as the spec words it: the
identifier once if some suggestion saves more than 50, and once more if
removal is recommended. -/
def itemPriority (item : ItemAnalysis) : List String :=
  (if ∃ s ∈ item.suggestions, s.costSavings > 50 then [item.itemId] else []) ++
  (if item.removalSuggestion.recommended then [item.itemId] else [])

/-- An analysis qualifying for both reasons: best savings 100 (> 50) and a
recommended removal. -/
def bigSavingsRemovalItem : ItemAnalysis :=
  { itemId := "B7"
    name := "Stapler"
    currentCost := 200
    lastUsed := none
    neverUsedFlag := true
    suggestions := [{ suggestedItemId := none
                      name := "Budget Stapler"
                      estimatedCost := 100
                      costSavings := 100
                      savingsPercent := 50
                      confidence := 9/10
                      rationale := "cheaper" }]
    removalSuggestion := { recommended := true
                           reason := none
                           actionableCheckboxId := some "chk_B7" } }

/-- C8 (confirmed).  The priority list is the order-preserving
concatenation of per-item contributions — an identifier once per
qualifying reason (best savings strictly above 50, removal recommended),
with no deduplication, as the doubly-qualifying item shows — and the
response's `uiHints.priorityItems` is its first-5 truncation. -/
theorem priority_items_semantics :
    (∀ l : List ItemAnalysis, priority_items_of l = l.flatMap itemPriority)
    ∧ (∀ (provider : List ItemInput → Except PyErr (List ItemAnalysis))
        (request : SuggestionRequest) (r : SuggestionResponse),
        generate_suggestions provider request = .ok r →
        r.uiHints.priorityItems = (priority_items_of r.itemsAnalyzed).take 5)
    ∧ priority_items_of [bigSavingsRemovalItem] =
        [bigSavingsRemovalItem.itemId, bigSavingsRemovalItem.itemId] := by
  refine ⟨?_, ?_, by with_unfolding_all rfl⟩
  · intro l
    have gen : ∀ (l : List ItemAnalysis) (acc : List String),
        List.foldl
          (fun priority_items item =>
            let priority_items :=
              if item.suggestions.isEmpty = false ∧ max_savings_of item.suggestions > 50 then
                priority_items ++ [item.itemId]
              else priority_items
            if item.removalSuggestion.recommended then priority_items ++ [item.itemId]
            else priority_items)
          acc l = acc ++ l.flatMap itemPriority := by
      intro l
      induction l with
      | nil => intro acc; simp
      | cons x xs ih =>
        intro acc
        simp only [List.foldl_cons, List.flatMap_cons, ih]
        rw [← List.append_assoc]
        congr 1
        simp only [itemPriority, max_savings_gt_iff]
        by_cases h1 : ∃ s ∈ x.suggestions, s.costSavings > 50 <;>
          by_cases h2 : x.removalSuggestion.recommended = true <;>
            simp [h1, h2, max_savings_gt_iff]
    simpa using gen l []
  · intro provider request r h
    simp only [generate_suggestions] at h
    split at h
    next r' heq =>
      simp only [Except.ok.injEq] at h
      subst h
      split at heq
      · exact absurd heq (by simp)
      split at heq
      · exact absurd heq (by simp)
      split at heq
      · exact absurd heq (by simp)
      next items hprov =>
        simp only [Except.ok.injEq] at heq
        subst heq
        rfl
    next e heq => exact absurd h (by simp)
    next heq => exact absurd h (by simp)
    next e heq => exact absurd h (by simp)

/-- The response the endpoint assembles for a provider returning the
doubly-qualifying analysis. -/
def constPriorityResponse : SuggestionResponse :=
  { spcId := "SPC-1"
    subGrid := "Supplies"
    itemsAnalyzed := [bigSavingsRemovalItem]
    summary := build_summary_prompt [bigSavingsRemovalItem]
    uiHints := { displayMode := "panel"
                 priorityItems := ["B7", "B7"]
                 pagination := (1, 1) } }

/-- Witness for C8: at a concrete provider and request, the response's
priority list is the first-5 truncation (here the duplicate pair). -/
theorem priority_items_semantics_witness :
    constPriorityResponse.uiHints.priorityItems =
      (priority_items_of constPriorityResponse.itemsAnalyzed).take 5 :=
  priority_items_semantics.2.1 (fun _ => .ok [bigSavingsRemovalItem]) (spcRequest [gauze])
    constPriorityResponse (by with_unfolding_all rfl)

end POC

namespace POC

/-- `sum(1 for x in l)` is the length. -/
theorem sum_ones_eq_length {α : Type} (l : List α) :
    (l.map (fun _ => (1 : ℕ))).sum = l.length := by
  induction l <;> simp [*, Nat.add_comm]

/-- `Nat.digitChar` of a value below ten is a decimal digit. -/
theorem digitChar_isDigit (k : ℕ) (hk : k < 10) : (Nat.digitChar k).isDigit = true := by
  interval_cases k <;> decide

/-- `pyMax l d` over a nonempty list is the greatest element: it is in the
list, and no element exceeds it. -/
theorem pyMax_cons_spec (x : ℚ) (xs : List ℚ) (d : ℚ) :
    pyMax (x :: xs) d ∈ x :: xs ∧ ∀ b ∈ x :: xs, b ≤ pyMax (x :: xs) d := by
  have key : ∀ (l : List ℚ) (a : ℚ),
      l.foldl max a ∈ a :: l ∧ ∀ b ∈ a :: l, b ≤ l.foldl max a := by
    intro l
    induction l with
    | nil => intro a; simp
    | cons y ys ih =>
      intro a
      obtain ⟨hmem, hub⟩ := ih (max a y)
      constructor
      · simp only [List.foldl_cons]
        rcases List.mem_cons.mp hmem with h | h
        · rcases max_choice a y with hm | hm <;> rw [h, hm] <;> simp
        · simp [List.mem_cons, h]
      · intro b hb
        simp only [List.foldl_cons]
        rcases List.mem_cons.mp hb with rfl | hb'
        · exact le_trans (le_max_left b y) (hub _ (List.mem_cons_self _ _))
        · rcases List.mem_cons.mp hb' with rfl | hb''
          · exact le_trans (le_max_right a b) (hub _ (List.mem_cons_self _ _))
          · exact hub _ (List.mem_cons_of_mem _ hb'')
  exact key xs x

/-- C9 (confirmed).  `build_summary_prompt` is, without any model call, the
fixed template reporting the total item count, the number of items with at
least one suggestion, the number flagged never-used, and the potential
savings — the sum over items-with-suggestions of that item's maximum
single-suggestion `costSavings` — printed with exactly two decimal digits
after the point. -/
theorem summary_prompt_semantics :
    (∀ l : List ItemAnalysis,
      build_summary_prompt l =
        "Analyzed " ++ toString l.length ++
          " items. Found cost-saving alternatives for " ++
          toString (l.countP (fun item => !item.suggestions.isEmpty)) ++
          " items with potential savings of $" ++
          formatMoney2 (((l.filter (fun item => !item.suggestions.isEmpty)).map
            (fun item => pyMax (item.suggestions.map (fun s => s.costSavings)) 0)).sum) ++
          ". Identified " ++ toString (l.countP (fun item => item.neverUsedFlag)) ++
          " never-used items recommended for removal.")
    ∧ (∀ q : ℚ, ∃ intPart d₁ d₂,
        formatMoney2 q = intPart ++ "." ++ String.mk [d₁, d₂] ∧
        d₁.isDigit = true ∧ d₂.isDigit = true) := by
  constructor
  · intro l
    simp only [build_summary_prompt, sum_ones_eq_length, List.countP_eq_length_filter]
  · intro q
    refine ⟨(if roundHalfEven (q * 100) < 0 then "-" else "") ++
        toString ((roundHalfEven (q * 100)).natAbs / 100),
      Nat.digitChar ((roundHalfEven (q * 100)).natAbs % 100 / 10),
      Nat.digitChar ((roundHalfEven (q * 100)).natAbs % 100 % 10), rfl,
      digitChar_isDigit _ (by omega), digitChar_isDigit _ (by omega)⟩

end POC
